import Mathlib

/-!
Verification of `start_new_investigation.py`.

The script scaffolds a new investigation directory from a chosen Jupyter
notebook template.  We give a shallow embedding of its pure logic:

* Python regular-expression checks are embedded as executable predicates on
  `List Char`, including the semantics of `$` in `re.match` (which also
  matches just before a single trailing newline);
* `str.strip` and `pathlib.Path.suffix` are embedded faithfully;
* the `MSG` logging class is embedded with its configured level as an
  `Option Int` (`none` models the initial `CONFIGURED_LEVEL = None`), and
  Python runtime errors (`TypeError` on `int <= None`, `AttributeError` on a
  missing class attribute) are made explicit;
* the filesystem is a set of existing directory paths (`List (List String)`),
  and `create_directory` threads it explicitly, returning the optional new
  path, the updated filesystem and the list of `MSG.log` calls it makes;
* a directory tree is an inductive `FSEntry`, and `get_list_of_notebooks`
  performs the recursive traversal with the ignore list.
-/

namespace StartNewInvestigation

/-- Errors that the embedded Python fragments can raise at run time. -/
inductive PyError where
| typeError
| attributeError
deriving DecidableEq

/-- Characters accepted by the allow-list character class
`[a-zA-Z0-9 \.\-_#\(\)]` used both for directory names and case IDs. -/
def isAllowedChar (c : Char) : Bool :=
  ('a' ≤ c && c ≤ 'z') || ('A' ≤ c && c ≤ 'Z') || ('0' ≤ c && c ≤ '9') ||
  c = ' ' || c = '.' || c = '-' || c = '_' || c = '#' || c = '(' || c = ')'

/-- Characters removed by Python `str.strip()` (ASCII whitespace). -/
def isPyWhitespace (c : Char) : Bool :=
  c = ' ' || c = '\t' || c = '\n' || c = '\x0d' || c = '\x0b' || c = '\x0c'

/-- Python `str.strip()`: drop leading and trailing whitespace. -/
def pyStrip (s : String) : String :=
  ⟨((s.data.dropWhile isPyWhitespace).reverse.dropWhile isPyWhitespace).reverse⟩

/-- The region of the subject string that `$` allows a non-MULTILINE Python
`re.match` to end at: the whole string, or the string minus a single trailing
newline. -/
def pyDollarCore (l : List Char) : List Char :=
  match l.getLast? with
  | some c => if c = '\n' then l.dropLast else l
  | none => l

/-- Python `re.match(r"^[class]{lo,hi}$", s)` for a character class `p`:
the matched core (the string up to where `$` can match) must consist of
between `lo` and `hi` characters of the class. -/
def pyMatchClass (p : Char → Bool) (lo hi : Nat) (s : String) : Bool :=
  let core := pyDollarCore s.data
  decide (lo ≤ core.length) && decide (core.length ≤ hi) && core.all p

/-- Python `re.match(r"^#?\d+$", s)`: an optional `#` followed by one or
more digits (up to where `$` can match). -/
def pyMatchHashDigits (s : String) : Bool :=
  let core := pyDollarCore s.data
  let t := match core with
    | '#' :: rest => rest
    | other => other
  decide (t ≠ []) && t.all Char.isDigit

/-- Python `s.startswith("#")`. -/
def startsWithHash (s : String) : Bool :=
  match s.data with
  | '#' :: _ => true
  | _ => false

/-- Index of the last `.` in a list of characters, if any. -/
def lastDotIdx : List Char → Option Nat
  | [] => none
  | c :: rest =>
      match lastDotIdx rest with
      | some i => some (i + 1)
      | none => if c = '.' then some 0 else none

/-- `pathlib.PurePath.suffix` of a file name: the part from the last dot on,
but only when that dot is neither the first nor the last character. -/
def pySuffix (name : String) : String :=
  match lastDotIdx name.data with
  | none => ""
  | some i =>
      if 0 < i && i + 1 < name.data.length then ⟨name.data.drop i⟩ else ""

-- -----------------------------------------------------------------------------
-- Class MSG (lines 31-137 of the source)
-- -----------------------------------------------------------------------------

namespace MSG

/-- `MSG.SILENT = 1`. -/
def SILENT : Int := 1

/-- `MSG.CRITICAL = 2`. -/
def CRITICAL : Int := 2

/-- `MSG.ERROR = 3`. -/
def ERROR : Int := 3

/-- `MSG.WARNING = 4`. -/
def WARNING : Int := 4

/-- `MSG.INFO = 5`. -/
def INFO : Int := 5

/-- `MSG.VERBOSE = 6`. -/
def VERBOSE : Int := 6

/-- `MSG.DEBUG = 7`. -/
def DEBUG : Int := 7

/-- `MSG.DEFAULT_LEVEL = WARNING` (defined in the class body, line 43). -/
def DEFAULT_LEVEL : Int := WARNING

/-- The class dictionary `_level_to_name_lookup` (source order kept). -/
def level_to_name_lookup : List (Int × String) :=
  [(SILENT, "SILENT"), (CRITICAL, "CRITICAL"), (ERROR, "ERROR"),
   (WARNING, "WARNING"), (INFO, "INFO"), (DEBUG, "DEBUG"), (VERBOSE, "VERBOSE")]

/-- The class dictionary `_name_to_level_lookup`. -/
def name_to_level_lookup : List (String × Int) :=
  [("SILENT", SILENT), ("CRITICAL", CRITICAL), ("ERROR", ERROR),
   ("WARNING", WARNING), ("INFO", INFO), ("DEBUG", DEBUG), ("VERBOSE", VERBOSE)]

/-- Values stored in the `MSG` class dictionary. -/
inductive Attr where
| intVal (n : Int)
| levelToName (d : List (Int × String))
| nameToLevel (d : List (String × Int))
| noneVal
deriving DecidableEq

/-- The data attributes of the `MSG` class, exactly as defined in its body:
note that there is no attribute named `_name_lookup`. -/
def classAttrs : List (String × Attr) :=
  [("SILENT", .intVal SILENT), ("CRITICAL", .intVal CRITICAL),
   ("ERROR", .intVal ERROR), ("WARNING", .intVal WARNING),
   ("INFO", .intVal INFO), ("VERBOSE", .intVal VERBOSE),
   ("DEBUG", .intVal DEBUG), ("DEFAULT_LEVEL", .intVal DEFAULT_LEVEL),
   ("CONFIGURED_LEVEL", .noneVal),
   ("_level_to_name_lookup", .levelToName level_to_name_lookup),
   ("_name_to_level_lookup", .nameToLevel name_to_level_lookup)]

/-- `MSG.getName(level)`: look the level up in `_level_to_name_lookup`,
returning `None` when absent.  (The `type(level) is not int` guard is
discharged by the Lean type.) -/
def getName (level : Int) : Option String :=
  level_to_name_lookup.lookup level

/-- `MSG.getLevel(name)`: look the name up in `_name_to_level_lookup`,
returning `None` when absent. -/
def getLevel (name : String) : Option Int :=
  name_to_level_lookup.lookup name

/-- `MSG.setLevelByName(name)`: on a known name, set `CONFIGURED_LEVEL` and
return `True`; otherwise print an error and return `False`.  The state
(`CONFIGURED_LEVEL`, possibly still `None`) is threaded explicitly. -/
def setLevelByName (configured : Option Int) (name : String) :
    Option Int × Bool :=
  match name_to_level_lookup.lookup name with
  | some v => (some v, true)
  | none => (configured, false)

/-- `MSG.setLevel(level)` (source lines 115-125).  The body evaluates
`level in cls._name_lookup`, an access to a class attribute that does not
exist, so Python raises `AttributeError` before any assignment; the embedding
looks `_name_lookup` up in the faithful class dictionary `classAttrs`.
Returns the (unchanged on error) configured level and the raised error. -/
def setLevel (configured : Option Int) (level : Int) :
    Option Int × Option PyError :=
  match classAttrs.lookup "_name_lookup" with
  | none => (configured, some .attributeError)
  | some (.levelToName d) =>
      if (d.lookup level).isSome then (some level, none) else (configured, none)
  | some _ => (configured, some .typeError)

/-- Python's rendering of an `Optional[str]` inside an f-string: `None`
prints as the four characters `None`. -/
def fmtOptStr : Option String → String
  | some s => s
  | none => "None"

/-- `MSG.log(verbosity_level, function_name, message)` (source lines
128-137).  Returns the line printed to standard output, if any.  When
`CONFIGURED_LEVEL` is still `None`, the comparison
`verbosity_level <= cls.CONFIGURED_LEVEL` raises a `TypeError`. -/
def log (configured : Option Int) (verbosity_level : Int)
    (function_name message : String) : Except PyError (Option String) :=
  let verbosity_string := getName verbosity_level
  match configured with
  | none => .error .typeError
  | some c =>
      if verbosity_level ≤ c then
        .ok (some ("[" ++ fmtOptStr verbosity_string ++ "::" ++ function_name
          ++ "] " ++ message))
      else
        .ok none

end MSG

-- -----------------------------------------------------------------------------
-- Case-reference normalization loop in main (source lines 301-321)
-- -----------------------------------------------------------------------------

/-- Outcome of one iteration of the case-ID prompt loop. -/
inductive CaseIdStep where
| accepted (case_id : Option String)
| reprompt
deriving DecidableEq

/-- One iteration of the case-ID loop of `main` (lines 303-321): strip the
raw input; accept empty input as no case reference; `#`-prefix a numeric
token; wrap any other allow-listed token of length 1-20 as `#(...)`;
otherwise warn and re-prompt. -/
def caseIdStep (raw : String) : CaseIdStep :=
  let case_id := pyStrip raw
  if case_id = "" then .accepted none
  else if pyMatchHashDigits case_id then
    if !startsWithHash case_id then .accepted (some ("#" ++ case_id))
    else .accepted (some case_id)
  else if pyMatchClass isAllowedChar 1 20 case_id then
    .accepted (some ("#(" ++ case_id ++ ")"))
  else .reprompt

/-- The whole case-ID `while` loop on a scripted list of input lines:
`none` means every provided line was rejected and the loop is still
prompting. -/
def caseIdLoop : List String → Option (Option String)
  | [] => none
  | raw :: rest =>
      match caseIdStep raw with
      | .accepted c => some c
      | .reprompt => caseIdLoop rest

-- -----------------------------------------------------------------------------
-- Filesystem model and create_directory (source lines 186-239)
-- -----------------------------------------------------------------------------

/-- A filesystem path, as a list of components. -/
abbrev FsPath := List String

/-- The filesystem state: the set (as a list) of directory paths that exist. -/
abbrev FS := List FsPath

/-- One `MSG.log(level, function_name, message)` call made by the code. -/
structure LogEvent where
  level : Int
  source : String
  message : String
deriving DecidableEq

/-- Exit code `RETURN_SUCCESS = 0`. -/
def RETURN_SUCCESS : Int := 0

/-- Exit code `RETURN_ERROR = 1`. -/
def RETURN_ERROR : Int := 1

/-- Exit code `RETURN_INVALID = 2`. -/
def RETURN_INVALID : Int := 2

/-- Exit code `RETURN_NOT_IMPLEMENTED = 3`. -/
def RETURN_NOT_IMPLEMENTED : Int := 3

/-- Python truthiness of an `Optional[str]`: `None` and `""` are falsy. -/
def pyTruthy : Option String → Bool
  | none => false
  | some s => !(s = "")

/-- The directory name composed by `create_directory` (source lines 205-209):
the timestamp, then `" <case_id>"` when `case_id` is truthy, then either
`" - <folder_name>"` when `folder_name` is truthy or the literal
`" - New Investigation"`. -/
def composedName (now : String) (case_id folder_name : Option String) : String :=
  let n1 := now
  let n2 := if pyTruthy case_id then n1 ++ " " ++ case_id.getD "" else n1
  if pyTruthy folder_name then n2 ++ " - " ++ folder_name.getD ""
  else n2 ++ " - New Investigation"

/-- All nonempty path components of a path, shortest first:
`mkdir(parents=True)` creates all of them. -/
def ancestorPaths : FsPath → List FsPath
  | [] => []
  | a :: rest => [a] :: (ancestorPaths rest).map (fun p => a :: p)

/-- `Path.mkdir(parents=True, exist_ok=False)`: add the path and every
missing ancestor to the filesystem. -/
def mkdirParents (fs : FS) (path : FsPath) : FS :=
  fs ++ (ancestorPaths path).filter (fun p => decide (p ∉ fs))

/-- The `MSG.log(MSG.INFO, ...)` event announcing the composed directory
name (source line 210). -/
def nameLog (now : String) (case_id folder_name : Option String) : LogEvent :=
  ⟨MSG.INFO, "create_directory",
    "New directory name: " ++ composedName now case_id folder_name⟩

/-- `create_directory(investigations_dir, case_id, folder_name)` (source
lines 186-239), with the filesystem threaded explicitly and `DRYRUN` and the
current timestamp string passed as parameters.  Returns the optional new
directory path, the updated filesystem, and the `MSG.log` calls made (the
source's `new_dir_name` and `new_dir_path` locals are inlined). -/
def create_directory (fs : FS) (DRYRUN : Bool) (now : String)
    (investigations_dir : FsPath) (case_id folder_name : Option String) :
    Option FsPath × FS × List LogEvent :=
  if ¬ investigations_dir ∈ fs then
    (none, fs, [⟨MSG.ERROR, "create_directory",
      "Investigations directory does not exist."⟩])
  else if ¬ pyMatchClass isAllowedChar 1 75 (composedName now case_id folder_name) then
    (none, fs, [nameLog now case_id folder_name,
      ⟨MSG.ERROR, "create_directory", "Invalid directory name."⟩])
  else if investigations_dir ++ [composedName now case_id folder_name] ∈ fs then
    (none, fs, [nameLog now case_id folder_name,
      ⟨MSG.ERROR, "create_directory", "Directory already exists."⟩])
  else if DRYRUN then
    (none, fs, [nameLog now case_id folder_name,
      ⟨MSG.DEBUG, "create_directory", "DRYRUN: Would have created directory."⟩])
  else if ¬ investigations_dir ++ [composedName now case_id folder_name] ∈
      mkdirParents fs (investigations_dir ++ [composedName now case_id folder_name]) then
    (none, mkdirParents fs (investigations_dir ++ [composedName now case_id folder_name]),
      [nameLog now case_id folder_name,
       ⟨MSG.ERROR, "create_directory", "Failed to create directory."⟩])
  else
    (some (investigations_dir ++ [composedName now case_id folder_name]),
      mkdirParents fs (investigations_dir ++ [composedName now case_id folder_name]),
      [nameLog now case_id folder_name,
       ⟨MSG.INFO, "create_directory", "Created directory."⟩])

/-- The check `main` performs right after calling `create_directory` (source
lines 332-335): if the returned value is `None` or the path does not exist,
log an error and return `RETURN_ERROR`; `none` here means main continues on
to the copy step. -/
def mainAfterCreate (fs : FS) (new_dir : Option FsPath) : Option Int :=
  match new_dir with
  | none => some RETURN_ERROR
  | some d => if d ∈ fs then none else some RETURN_ERROR

-- -----------------------------------------------------------------------------
-- Template discovery (source lines 143-183)
-- -----------------------------------------------------------------------------

/-- `PLAYBOOK_IGNORE_DIRS` (source line 20). -/
def PLAYBOOK_IGNORE_DIRS : List String :=
  [".ipynb_checkpoints", "__pycache__", ".git", ".venv", "venv", "build",
   "dist", ".cache", "cache", ".vscode", ".idea", ".pytest_cache",
   "node_modules", ".env", "env", "logs", "tmp", "temp"]

/-- A directory-tree entry: a directory with its children, or a plain file. -/
inductive FSEntry where
| dir (name : String) (children : List FSEntry)
| file (name : String)

/-- The body of `recursive_search` (source lines 167-173) applied to one
item: a matching file is collected (annotated with the directory-name chain
`path` below the traversal root); a directory not in the ignore list is
recursed into; an ignored directory contributes nothing. -/
def searchItem (path : List String) : FSEntry → List (List String × String)
  | .file name =>
      if pySuffix name = ".ipynb" then [(path, name)] else []
  | .dir name children =>
      if name ∈ PLAYBOOK_IGNORE_DIRS then []
      else (children.attach.map
        (fun c => searchItem (path ++ [name]) c.1)).flatten
termination_by e => sizeOf e
decreasing_by
  have hmem : sizeOf c.1 < sizeOf children := List.sizeOf_lt_of_mem c.2
  have hdir : sizeOf children < sizeOf (FSEntry.dir name children) := by
    simp +arith [FSEntry.dir.sizeOf_spec]
  exact Nat.lt_trans hmem hdir

/-- `get_list_of_notebooks(playbooks_dir)` (source lines 143-183).  The root
argument is `none` when `playbooks_dir.is_dir()` is false, otherwise `some`
of the root directory's items.  Returns `None` when the root is invalid or
no notebook was collected, otherwise the collected list in traversal order. -/
def get_list_of_notebooks (root : Option (List FSEntry)) :
    Option (List (List String × String)) :=
  match root with
  | none => none
  | some items =>
      let playbooks := (items.map (searchItem [])).flatten
      if playbooks = [] then none else some playbooks

-- -----------------------------------------------------------------------------
-- Definitions taken from the specification text (for refinement claims)
-- -----------------------------------------------------------------------------

/-- From the spec words of C1: the composed name matches "the allow-list
pattern (letters, digits, space, and `. - _ # ( )`) and is at most 75
characters" - a strict reading with no concession to Python `$` semantics. -/
def specNamePattern (s : String) : Bool :=
  s.data.all isAllowedChar && decide (1 ≤ s.length) && decide (s.length ≤ 75)

/-- From the spec words of C1: name = `<local-timestamp>[ <case_ref>][ - <label>]`
with `label` defaulting to the literal "New Investigation" when absent. -/
def specComposedName (now : String) (case_ref label : Option String) : String :=
  now ++ (match case_ref with | some c => " " ++ c | none => "")
      ++ " - " ++ label.getD "New Investigation"

-- -----------------------------------------------------------------------------
-- Supporting lemmas
-- -----------------------------------------------------------------------------

/-- The first element surviving `dropWhile p` does not satisfy `p`. -/
theorem head?_dropWhile_not (p : Char → Bool) :
    ∀ (l : List Char) (a : Char), (l.dropWhile p).head? = some a → p a = false := by
  intro l
  induction l with
  | nil => intro a h; simp [List.dropWhile] at h
  | cons c rest ih =>
      intro a h
      rw [List.dropWhile_cons] at h
      by_cases hc : p c
      · rw [if_pos hc] at h
        exact ih a h
      · rw [if_neg hc] at h
        simp at h
        rw [← h]
        exact Bool.eq_false_iff.mpr hc

/-- The last character of a stripped string is never whitespace. -/
theorem pyStrip_getLast?_not_ws (s : String) (c : Char)
    (h : (pyStrip s).data.getLast? = some c) : isPyWhitespace c = false := by
  unfold pyStrip at h
  simp only [List.getLast?_reverse] at h
  exact head?_dropWhile_not isPyWhitespace _ c h

/-- A stripped string never ends in a newline. -/
theorem pyStrip_no_trailing_newline (s : String) :
    (pyStrip s).data.getLast? ≠ some '\n' := by
  intro h
  have hfalse := pyStrip_getLast?_not_ws s '\n' h
  have htrue : isPyWhitespace '\n' = true := by decide
  rw [htrue] at hfalse
  exact absurd hfalse (by decide)

/-- `pyDollarCore` is the identity on strings without a trailing newline. -/
theorem pyDollarCore_of_not_newline (l : List Char)
    (h : l.getLast? ≠ some '\n') : pyDollarCore l = l := by
  unfold pyDollarCore
  cases hl : l.getLast? with
  | none => rfl
  | some c =>
      have hc : ¬ c = '\n' := fun hc => h (hc ▸ hl)
      simp [hc]

/-- A string without trailing newline matching `^[class]{lo,hi}$` has length
at most `hi`. -/
theorem pyMatchClass_length_le (p : Char → Bool) (lo hi : Nat) (s : String)
    (hnl : s.data.getLast? ≠ some '\n') (h : pyMatchClass p lo hi s = true) :
    s.length ≤ hi := by
  unfold pyMatchClass at h
  rw [pyDollarCore_of_not_newline s.data hnl] at h
  simp only [Bool.and_eq_true, decide_eq_true_eq] at h
  exact h.1.2

/-- A nonempty path is among its own ancestor paths. -/
theorem self_mem_ancestorPaths : ∀ (a : String) (rest : List String),
    (a :: rest) ∈ ancestorPaths (a :: rest) := by
  intro a rest
  induction rest generalizing a with
  | nil => simp [ancestorPaths]
  | cons b rest ih =>
      simp only [ancestorPaths, List.mem_cons]
      right
      exact List.mem_map.mpr ⟨b :: rest, ih b, rfl⟩

/-- After `mkdirParents fs path`, the nonempty path `path` exists. -/
theorem mem_mkdirParents (fs : FS) (path : FsPath) (h : path ≠ []) :
    path ∈ mkdirParents fs path := by
  by_cases hfs : path ∈ fs
  · exact List.mem_append_left _ hfs
  · refine List.mem_append_right _ ?_
    rw [List.mem_filter]
    refine ⟨?_, by simp [hfs]⟩
    cases path with
    | nil => exact absurd rfl h
    | cons a rest => exact self_mem_ancestorPaths a rest

/-- Every result of `searchItem path e` is an `.ipynb` file whose
directory-name chain extends `path` only with names outside the ignore
list. -/
theorem searchItem_spec (path : List String) (e : FSEntry) :
    ∀ pr ∈ searchItem path e,
      pySuffix pr.2 = ".ipynb"
      ∧ ∃ rel, pr.1 = path ++ rel ∧ ∀ d ∈ rel, d ∉ PLAYBOOK_IGNORE_DIRS := by
  induction path, e using searchItem.induct with
  | case1 path name hsuf =>
      intro pr hpr
      simp only [searchItem] at hpr
      rw [if_pos hsuf] at hpr
      have hpr2 := List.mem_singleton.mp hpr
      subst hpr2
      exact ⟨hsuf, [], by simp, by simp⟩
  | case2 path name hsuf =>
      intro pr hpr
      simp only [searchItem] at hpr
      rw [if_neg hsuf] at hpr
      simp at hpr
  | case3 path name children hign =>
      intro pr hpr
      simp only [searchItem] at hpr
      rw [if_pos hign] at hpr
      simp at hpr
  | case4 path name children hign ih =>
      intro pr hpr
      simp only [searchItem] at hpr
      rw [if_neg hign] at hpr
      rw [List.mem_flatten] at hpr
      obtain ⟨l, hl, hprl⟩ := hpr
      rw [List.mem_map] at hl
      obtain ⟨c, _, rfl⟩ := hl
      obtain ⟨hsuf, rel, hrel, hmem⟩ := ih c pr hprl
      refine ⟨hsuf, name :: rel, ?_, ?_⟩
      · rw [hrel]; simp
      · intro d hd
        rcases List.mem_cons.mp hd with h | h
        · rw [h]; exact hign
        · exact hmem d h

-- -----------------------------------------------------------------------------
-- Claim theorems
-- -----------------------------------------------------------------------------

/-- Claim C3: the case-reference normalization of the interactive loop maps
`"12345"` to `"#12345"`, `"#12345"` to `"#12345"`, `"case A-1"` to
`"#(case A-1)"`, and empty input to no case reference; an input with a
disallowed character such as `"case!"` is rejected, and the loop re-prompts
without producing a case reference. -/
theorem case_reference_normalization_examples :
    caseIdStep "12345" = .accepted (some "#12345")
    ∧ caseIdStep "#12345" = .accepted (some "#12345")
    ∧ caseIdStep "case A-1" = .accepted (some "#(case A-1)")
    ∧ caseIdStep "" = .accepted none
    ∧ caseIdStep "case!" = .reprompt
    ∧ caseIdLoop ["case!"] = none
    ∧ caseIdLoop ["case!", "12345"] = some (some "#12345") := by
  decide

/-- Claim C6: with a configured level `c` set, `MSG.log` prints the line
`[<LEVEL_NAME>::<source_label>] <message>` to standard output if and only if
`level ≤ c`, and has no other effect (the call returns exactly the optional
printed line and raises nothing). -/
theorem msg_log_prints_iff :
    ∀ (c level : Int) (src msg : String),
      MSG.log (some c) level src msg =
        Except.ok (if level ≤ c then
          some ("[" ++ MSG.fmtOptStr (MSG.getName level) ++ "::" ++ src
            ++ "] " ++ msg)
        else none)
      ∧ ((∃ line, MSG.log (some c) level src msg = Except.ok (some line))
          ↔ level ≤ c) := by
  intro c level src msg
  refine ⟨?_, ?_⟩ <;> by_cases h : level ≤ c <;> simp [MSG.log, h]

/-- Claim C7 (code bug): when `CONFIGURED_LEVEL` was never set, the class
attribute `DEFAULT_LEVEL = WARNING` is never consulted; instead the
comparison `verbosity_level <= cls.CONFIGURED_LEVEL` in `MSG.log` raises a
`TypeError` for every level, so the logger does not behave as if configured
at WARNING. -/
theorem msg_log_unset_level_raises :
    ∀ (level : Int) (src msg : String),
      MSG.log none level src msg = Except.error PyError.typeError := by
  intro level src msg
  rfl

/-- Claim C10: for every configured state and every integer argument,
`MSG.setLevel` raises an `AttributeError` (its body reads the nonexistent
class attribute `_name_lookup`) and never updates the configured level. -/
theorem msg_setLevel_always_attr_error :
    ∀ (configured : Option Int) (level : Int),
      MSG.setLevel configured level = (configured, some PyError.attributeError) := by
  intro configured level
  rfl

/-- Claim C8 counterexample: the 21-character numeric input
`"123456789012345678901"` is accepted by the case-reference loop and
produces a case reference, so accepted inputs are not bounded by 20
characters. -/
theorem long_numeric_case_id_accepted :
    caseIdStep "123456789012345678901"
      = .accepted (some "#123456789012345678901")
    ∧ 20 < ("123456789012345678901" : String).length := by
  decide

/-- Claim C8 (amended): an accepted input whose stripped form is not a
numeric token (so it is accepted through the `#(...)`-wrapping branch) has
stripped length at most 20; numeric tokens bypass this bound. -/
theorem accepted_nonnumeric_case_id_short (raw c : String)
    (hacc : caseIdStep raw = .accepted (some c))
    (hnum : pyMatchHashDigits (pyStrip raw) = false) :
    (pyStrip raw).length ≤ 20 := by
  simp only [caseIdStep] at hacc
  by_cases h0 : pyStrip raw = ""
  · simp [h0] at hacc
  · rw [if_neg h0, hnum] at hacc
    simp only [Bool.false_eq_true, if_false] at hacc
    by_cases h2 : pyMatchClass isAllowedChar 1 20 (pyStrip raw) = true
    · exact pyMatchClass_length_le isAllowedChar 1 20 (pyStrip raw)
        (pyStrip_no_trailing_newline raw) h2
    · simp [h2] at hacc

/-- Witness for the amended C8 theorem at the concrete input `"case A-1"`. -/
theorem accepted_nonnumeric_case_id_short_witness :
    (pyStrip "case A-1").length ≤ 20 :=
  accepted_nonnumeric_case_id_short "case A-1" "#(case A-1)"
    (by decide) (by decide)

/-- Claim C1 (amended): with an existing base directory, the composed name
is the timestamp, then `" <case_ref>"` when a (nonempty) case reference is
given, then `" - <label>"` with the label defaulting to the literal
`"New Investigation"`; the routine returns a path only if this name passes
the code's allow-list check - Python `re.match` with `$`, which accepts
1-75 allow-listed characters optionally followed by one trailing newline -
and returns `None` whenever that check fails. -/
theorem create_directory_name_validation (fs : FS) (DRYRUN : Bool)
    (now : String) (inv : FsPath) (c f : Option String)
    (hinv : inv ∈ fs) (hc : c ≠ some "") (hf : f ≠ some "") :
    composedName now c f = specComposedName now c f
    ∧ (∀ p, (create_directory fs DRYRUN now inv c f).1 = some p →
        pyMatchClass isAllowedChar 1 75 (composedName now c f) = true)
    ∧ (pyMatchClass isAllowedChar 1 75 (composedName now c f) = false →
        (create_directory fs DRYRUN now inv c f).1 = none) := by
  refine ⟨?_, ?_, ?_⟩
  · have hni : (" - " ++ "New Investigation" : String) = " - New Investigation" := rfl
    cases c with
    | none =>
        cases f with
        | none =>
            simp [composedName, specComposedName, pyTruthy,
              String.append_assoc, hni]
        | some s =>
            have hs : ¬ s = "" := fun h => hf (by rw [h])
            simp [composedName, specComposedName, pyTruthy, hs,
              String.append_assoc, hni]
    | some s =>
        have hs : ¬ s = "" := fun h => hc (by rw [h])
        cases f with
        | none =>
            simp [composedName, specComposedName, pyTruthy, hs,
              String.append_assoc, hni]
        | some t =>
            have ht : ¬ t = "" := fun h => hf (by rw [h])
            simp [composedName, specComposedName, pyTruthy, hs, ht,
              String.append_assoc, hni]
  · intro p hp
    by_cases hv : pyMatchClass isAllowedChar 1 75 (composedName now c f) = true
    · exact hv
    · exfalso
      unfold create_directory at hp
      rw [if_neg (not_not_intro hinv), if_pos hv] at hp
      simp at hp
  · intro hv
    unfold create_directory
    rw [if_neg (not_not_intro hinv),
      if_pos (show ¬ pyMatchClass isAllowedChar 1 75 (composedName now c f) = true
        by simp [hv])]

/-- Witness for the amended C1 theorem at a concrete call. -/
theorem create_directory_name_validation_witness :
    composedName "2026-01-02T03.04" (some "#42") (some "Phishing")
      = specComposedName "2026-01-02T03.04" (some "#42") (some "Phishing") :=
  (create_directory_name_validation [["Investigations"]] false
    "2026-01-02T03.04" ["Investigations"] (some "#42") (some "Phishing")
    (by decide) (by decide) (by decide)).1

/-- Claim C1 counterexample: with a label that ends in a newline the
composed name still passes the code's `re.match` check (Python `$` matches
before a trailing newline), so `create_directory` returns a path whose name
contains a character outside the allow-list and has 22 characters of which
the last is a newline - the strict reading of the allow-list pattern is
violated. -/
theorem create_directory_newline_name_escapes :
    (create_directory [["Investigations"]] false "2026-01-02T03.04"
      ["Investigations"] none (some "a\n")).1
      = some ["Investigations", "2026-01-02T03.04 - a\n"]
    ∧ specNamePattern "2026-01-02T03.04 - a\n" = false := by
  decide

/-- Claim C4: if a directory with the exact composed name already exists
under the base directory, `create_directory` returns `None`, logs an error,
and creates no new directory (the filesystem is unchanged). -/
theorem create_directory_collision_fails (fs : FS) (DRYRUN : Bool)
    (now : String) (inv : FsPath) (c f : Option String)
    (hcol : inv ++ [composedName now c f] ∈ fs) :
    (create_directory fs DRYRUN now inv c f).1 = none
    ∧ (create_directory fs DRYRUN now inv c f).2.1 = fs
    ∧ ∃ e ∈ (create_directory fs DRYRUN now inv c f).2.2,
        e.level = MSG.ERROR := by
  unfold create_directory
  by_cases h1 : inv ∈ fs
  · rw [if_neg (not_not_intro h1)]
    by_cases h2 : pyMatchClass isAllowedChar 1 75 (composedName now c f) = true
    · rw [if_neg (not_not_intro h2), if_pos hcol]
      exact ⟨rfl, rfl,
        ⟨MSG.ERROR, "create_directory", "Directory already exists."⟩,
        by simp, rfl⟩
    · rw [if_pos h2]
      exact ⟨rfl, rfl,
        ⟨MSG.ERROR, "create_directory", "Invalid directory name."⟩,
        by simp, rfl⟩
  · rw [if_pos h1]
    exact ⟨rfl, rfl,
      ⟨MSG.ERROR, "create_directory", "Investigations directory does not exist."⟩,
      by simp, rfl⟩

/-- Witness for the C4 theorem: the destination is pre-created, and the call
returns `None`. -/
theorem create_directory_collision_fails_witness :
    (create_directory
      [["Investigations"], ["Investigations", "2026-01-02T03.04 - Phishing"]]
      false "2026-01-02T03.04" ["Investigations"] none (some "Phishing")).1
      = none :=
  (create_directory_collision_fails
    [["Investigations"], ["Investigations", "2026-01-02T03.04 - Phishing"]]
    false "2026-01-02T03.04" ["Investigations"] none (some "Phishing")
    (by decide)).1

/-- Claim C5 (amended): in dry-run mode, given valid inputs (existing base
directory, valid composed name, no collision), no directory is created and
the DEBUG log line describing the hypothetical action is emitted, but the
routine returns `None` - the very same value as its failure result - and
`main` consequently treats the dry run as a failed creation and returns the
error code instead of proceeding as a normal success (so no file is copied). -/
theorem create_directory_dryrun_noop (fs : FS) (now : String) (inv : FsPath)
    (c f : Option String)
    (hinv : inv ∈ fs)
    (hname : pyMatchClass isAllowedChar 1 75 (composedName now c f) = true)
    (hcol : ¬ inv ++ [composedName now c f] ∈ fs) :
    (create_directory fs true now inv c f).1 = none
    ∧ (create_directory fs true now inv c f).2.1 = fs
    ∧ (create_directory fs true now inv c f).2.2 =
        [nameLog now c f,
         ⟨MSG.DEBUG, "create_directory", "DRYRUN: Would have created directory."⟩]
    ∧ mainAfterCreate fs (create_directory fs true now inv c f).1
        = some RETURN_ERROR := by
  unfold create_directory
  rw [if_neg (not_not_intro hinv), if_neg (not_not_intro hname),
    if_neg hcol, if_pos rfl]
  exact ⟨rfl, rfl, rfl, rfl⟩

/-- Witness for the amended C5 theorem at a concrete call. -/
theorem create_directory_dryrun_noop_witness :
    (create_directory [["Investigations"]] true "2026-01-02T03.04"
      ["Investigations"] none (some "Malware")).2.1 = [["Investigations"]] :=
  (create_directory_dryrun_noop [["Investigations"]] "2026-01-02T03.04"
    ["Investigations"] none (some "Malware")
    (by decide) (by decide) (by decide)).2.1

/-- Claim C2: template discovery never returns a file located inside a
directory whose bare name is in the fixed ignore set (at any nesting depth),
and every file it returns has the `.ipynb` extension. -/
theorem discovery_ignores_and_filters
    (root : List FSEntry) (l : List (List String × String))
    (pr : List String × String)
    (hg : get_list_of_notebooks (some root) = some l) (hpr : pr ∈ l) :
    pySuffix pr.2 = ".ipynb" ∧ ∀ d ∈ pr.1, d ∉ PLAYBOOK_IGNORE_DIRS := by
  rw [show get_list_of_notebooks (some root)
      = if (root.map (searchItem [])).flatten = [] then none
        else some ((root.map (searchItem [])).flatten) from rfl] at hg
  by_cases hempty : (root.map (searchItem [])).flatten = []
  · rw [if_pos hempty] at hg
    exact absurd hg (by simp)
  · rw [if_neg hempty] at hg
    have hl : l = (root.map (searchItem [])).flatten := (Option.some_inj.mp hg).symm
    subst hl
    rw [List.mem_flatten] at hpr
    obtain ⟨s, hs, hprs⟩ := hpr
    rw [List.mem_map] at hs
    obtain ⟨e, _, rfl⟩ := hs
    obtain ⟨hsuf, rel, hrel, hmem⟩ := searchItem_spec [] e pr hprs
    refine ⟨hsuf, ?_⟩
    rw [hrel, List.nil_append]
    exact hmem

/-- Witness for the C2 theorem on the one-file tree `[file "x.ipynb"]`. -/
theorem discovery_ignores_and_filters_witness :
    pySuffix (([], "x.ipynb") : List String × String).2 = ".ipynb"
    ∧ ∀ d ∈ (([], "x.ipynb") : List String × String).1,
        d ∉ PLAYBOOK_IGNORE_DIRS :=
  discovery_ignores_and_filters [FSEntry.file "x.ipynb"] [([], "x.ipynb")]
    ([], "x.ipynb")
    (by simp only [get_list_of_notebooks, List.map, List.flatten]
        simp [searchItem]
        decide)
    (by simp)

/-- Claim C9: discovery returns `None` exactly when the root is not an
existing directory or zero notebooks are collected by the traversal; in
every other case it returns the non-empty collected list. -/
theorem discovery_none_iff (root : Option (List FSEntry)) :
    (get_list_of_notebooks root = none ↔
      root = none ∨ ∃ items, root = some items
        ∧ (items.map (searchItem [])).flatten = [])
    ∧ (∀ l, get_list_of_notebooks root = some l →
        l ≠ [] ∧ ∃ items, root = some items
          ∧ l = (items.map (searchItem [])).flatten) := by
  cases root with
  | none =>
      constructor
      · exact iff_of_true rfl (Or.inl rfl)
      · intro l hl
        exact absurd hl (by simp [get_list_of_notebooks])
  | some items =>
      have hdef : get_list_of_notebooks (some items)
          = if (items.map (searchItem [])).flatten = [] then none
            else some ((items.map (searchItem [])).flatten) := rfl
      by_cases h : (items.map (searchItem [])).flatten = []
      · constructor
        · rw [hdef, if_pos h]
          exact iff_of_true rfl (Or.inr ⟨items, rfl, h⟩)
        · intro l hl
          rw [hdef, if_pos h] at hl
          exact absurd hl (by simp)
      · constructor
        · rw [hdef, if_neg h]
          refine iff_of_false (by simp) ?_
          rintro (h1 | ⟨items2, heq, hflat⟩)
          · exact absurd h1 (by simp)
          · rw [Option.some_inj.mp heq] at h
            exact h hflat
        · intro l hl
          rw [hdef, if_neg h] at hl
          exact ⟨(Option.some_inj.mp hl) ▸ h,
            items, rfl, (Option.some_inj.mp hl).symm⟩

/-- Witness for the C9 theorem on the one-file tree `[file "a.ipynb"]`. -/
theorem discovery_none_iff_witness :
    ([([], "a.ipynb")] : List (List String × String)) ≠ []
    ∧ ∃ items, (some [FSEntry.file "a.ipynb"] : Option (List FSEntry))
        = some items
      ∧ [(([] : List String), "a.ipynb")] = (items.map (searchItem [])).flatten :=
  (discovery_none_iff (some [FSEntry.file "a.ipynb"])).2 [([], "a.ipynb")]
    (by simp only [get_list_of_notebooks, List.map, List.flatten]
        simp [searchItem]
        decide)

/-- Claim C5 counterexample: the dry-run return value is `None`, exactly the
value returned on failure (here: missing base directory), so it is not an
explicit no-op result distinct from the failure result; and `main`'s check
after the call maps the dry run to `RETURN_ERROR`, not to a normal success. -/
theorem dryrun_result_equals_failure_result :
    (create_directory [["Investigations"]] true "2026-01-02T03.04"
        ["Investigations"] none (some "Phishing")).1 = none
    ∧ (create_directory [] false "2026-01-02T03.04"
        ["Investigations"] none (some "Phishing")).1 = none
    ∧ mainAfterCreate [["Investigations"]]
        (create_directory [["Investigations"]] true "2026-01-02T03.04"
          ["Investigations"] none (some "Phishing")).1 = some RETURN_ERROR := by
  decide

end StartNewInvestigation
